import Mathlib

/-!
Verification of the SynthSeg supervised-training module
(`SynthSeg/supervised_training.py`) against its natural-language
specification.  The Python source is shallowly embedded below: pure helpers
become Lean functions, the setup sequence of `supervised_training` becomes an
event trace in an error monad, and the Keras graph built by
`build_augmentation_model` is modelled both as a symbolic dataflow on tensor
descriptors (shape and dtype) and as a stepwise execution that tracks Python
name resolution.  Helpers that live in the external `ext.lab2im` / `ext.neuron`
packages (not part of this repository's sources) are modelled from the
specification and marked as such in their doc comments.
-/

namespace SynthSeg

/-- Modelled from the spec: `utils.find_closest_number_divisible_by_m` with
`smaller_ans=True` (from `ext.lab2im`, not under the repository sources) rounds
`n` down to the nearest multiple of `m`. -/
def find_closest_number_divisible_by_m (n m : Nat) : Nat := n / m * m

/-- Warning emitted by `get_shapes` when the requested crop shape is not
divisible by `output_div_by_n` (the `print` at the divisibility check). -/
inductive ShapeWarning where
  | notDivisible (old : List Nat) (m : Nat) (new : List Nat)
deriving DecidableEq

/-- Embedding of `get_shapes(im_shape, crop_shape, output_div_by_n)`
(supervised_training.py, lines 266-300).  Shapes are lists of naturals;
`utils.reformat_to_list` is the identity on lists that already have the right
length.  The second component collects the diagnostic messages printed by the
function: the source prints only in the crop-given, divisor-given branch when
rounding changes the clamped crop shape. -/
def get_shapes (im_shape : List Nat) (crop_shape : Option (List Nat))
    (output_div_by_n : Option Nat) : List Nat × List ShapeWarning :=
  let n_dims := im_shape.length
  match crop_shape with
  | some cs0 =>
    let cs1 := (List.range n_dims).map fun i => min (im_shape.getD i 0) (cs0.getD i 0)
    match output_div_by_n with
    | some m =>
      let tmp := cs1.map fun s => find_closest_number_divisible_by_m s m
      if cs1 ≠ tmp then (tmp, [ShapeWarning.notDivisible cs1 m tmp]) else (cs1, [])
    | none => (cs1, [])
  | none =>
    match output_div_by_n with
    | some m => (im_shape.map fun s => find_closest_number_divisible_by_m s m, [])
    | none => (im_shape, [])

/-- The clamped request on axis `i`: the requested crop size capped at the
native size when a crop shape is given, the native size otherwise. -/
def clamped_target (im_shape : List Nat) (crop_shape : Option (List Nat)) (i : Nat) : Nat :=
  match crop_shape with
  | some cs => min (im_shape.getD i 0) (cs.getD i 0)
  | none => im_shape.getD i 0

theorem round_down_dvd (n m : Nat) : m ∣ find_closest_number_divisible_by_m n m :=
  dvd_mul_left m (n / m)

theorem round_down_le (n m : Nat) : find_closest_number_divisible_by_m n m ≤ n :=
  Nat.div_mul_le_self n m

theorem round_down_greatest (n m k : Nat) (hm : 0 < m) (hdvd : m ∣ k) (hk : k ≤ n) :
    k ≤ find_closest_number_divisible_by_m n m := by
  obtain ⟨j, rfl⟩ := hdvd
  have hj : j ≤ n / m := (Nat.le_div_iff_mul_le hm).2 (by rw [Nat.mul_comm]; exact hk)
  calc m * j = j * m := Nat.mul_comm m j
    _ ≤ n / m * m := Nat.mul_le_mul_right m hj
    _ = find_closest_number_divisible_by_m n m := rfl

theorem crop_list_getD (im_shape cs0 : List Nat) (m i : Nat) (hi : i < im_shape.length) :
    (((List.range im_shape.length).map fun j => min (im_shape.getD j 0) (cs0.getD j 0)).map
        fun s => find_closest_number_divisible_by_m s m).getD i 0 =
      find_closest_number_divisible_by_m (min (im_shape.getD i 0) (cs0.getD i 0)) m := by
  rw [List.getD_eq_getElem _ _ (by simpa using hi)]
  simp [List.getElem_map, List.getElem_range]

theorem get_shapes_getD (im_shape : List Nat) (cropOpt : Option (List Nat)) (m : Nat)
    (i : Nat) (hi : i < im_shape.length) :
    (get_shapes im_shape cropOpt (some m)).1.getD i 0 =
      find_closest_number_divisible_by_m (clamped_target im_shape cropOpt i) m := by
  cases cropOpt with
  | none =>
    simp only [get_shapes, clamped_target]
    rw [List.getD_eq_getElem _ _ (by simpa using hi), List.getElem_map,
      List.getD_eq_getElem _ _ hi]
  | some cs0 =>
    simp only [get_shapes, clamped_target]
    split
    · exact crop_list_getD im_shape cs0 m i hi
    · next h =>
      push_neg at h
      rw [h]
      exact crop_list_getD im_shape cs0 m i hi

/-- C1: for every native shape, every positive `output_div_by_n` and any
(possibly absent) requested crop shape of matching dimensionality, `get_shapes`
returns on every axis the largest multiple of `output_div_by_n` that does not
exceed the clamped requested size (the native size when no crop is requested);
in particular native shape (100,100,100) with no crop and divisor 32 resolves
to (96,96,96). -/
theorem get_shapes_rounds_to_largest_multiple :
    (∀ (im_shape : List Nat) (cropOpt : Option (List Nat)) (m : Nat),
      0 < m →
      (∀ cs, cropOpt = some cs → cs.length = im_shape.length) →
      ∀ i, i < im_shape.length →
        m ∣ (get_shapes im_shape cropOpt (some m)).1.getD i 0 ∧
        (get_shapes im_shape cropOpt (some m)).1.getD i 0 ≤ clamped_target im_shape cropOpt i ∧
        ∀ k, m ∣ k → k ≤ clamped_target im_shape cropOpt i →
          k ≤ (get_shapes im_shape cropOpt (some m)).1.getD i 0) ∧
    (get_shapes [100, 100, 100] none (some 32)).1 = [96, 96, 96] := by
  constructor
  · intro im_shape cropOpt m hm _ i hi
    rw [get_shapes_getD im_shape cropOpt m i hi]
    exact ⟨round_down_dvd _ _, round_down_le _ _,
      fun k hdvd hk => round_down_greatest _ _ _ hm hdvd hk⟩
  · decide

/-- Witness for C1: the theorem instantiated at native shape (100,100,100), no
requested crop and divisor 32 on axis 0, where the resolved size is 96. -/
theorem get_shapes_rounds_to_largest_multiple_witness :
    (0 : Nat) < 32 ∧
    (32 ∣ (get_shapes [100, 100, 100] none (some 32)).1.getD 0 0 ∧
      (get_shapes [100, 100, 100] none (some 32)).1.getD 0 0 ≤
        clamped_target [100, 100, 100] none 0 ∧
      ∀ k, 32 ∣ k → k ≤ clamped_target [100, 100, 100] none 0 →
        k ≤ (get_shapes [100, 100, 100] none (some 32)).1.getD 0 0) :=
  ⟨by decide,
    get_shapes_rounds_to_largest_multiple.1 [100, 100, 100] none 32 (by decide)
      (fun cs h => by cases h) 0 (by decide)⟩

/-- C2: when a crop shape of matching dimensionality is requested, `get_shapes`
first clamps every axis to the native size (elementwise minimum) and only then
applies the divisibility rounding, so the resolved shape never exceeds the
native shape on any axis; in particular requested (120,80,80) on native
(100,100,100) is clamped to (100,80,80) before any rounding. -/
theorem get_shapes_clamps_before_rounding :
    (∀ (im_shape cs : List Nat) (mOpt : Option Nat),
      cs.length = im_shape.length →
      ∀ i, (get_shapes im_shape (some cs) mOpt).1.getD i 0 ≤ im_shape.getD i 0) ∧
    (∀ (im_shape cs : List Nat) (m : Nat),
      cs.length = im_shape.length →
      (get_shapes im_shape (some cs) (some m)).1 =
        (get_shapes im_shape (some cs) none).1.map
          fun s => find_closest_number_divisible_by_m s m) ∧
    (get_shapes [100, 100, 100] (some [120, 80, 80]) none).1 = [100, 80, 80] := by
  refine ⟨?_, ?_, by decide⟩
  · intro im_shape cs mOpt _ i
    by_cases hi : i < im_shape.length
    · cases mOpt with
      | some m =>
        rw [get_shapes_getD im_shape (some cs) m i hi]
        calc find_closest_number_divisible_by_m
              (min (im_shape.getD i 0) (cs.getD i 0)) m
            ≤ min (im_shape.getD i 0) (cs.getD i 0) := round_down_le _ _
          _ ≤ im_shape.getD i 0 := Nat.min_le_left _ _
      | none =>
        simp only [get_shapes]
        rw [List.getD_eq_getElem _ _ (by simpa using hi), List.getElem_map,
          List.getElem_range]
        exact Nat.min_le_left _ _
    · have hlen : (get_shapes im_shape (some cs) mOpt).1.length = im_shape.length := by
        cases mOpt with
        | some m =>
          simp only [get_shapes]
          split
          · simp
          · simp
        | none => simp [get_shapes]
      rw [List.getD_eq_default _ _ (by omega)]
      exact Nat.zero_le _
  · intro im_shape cs m _
    simp only [get_shapes]
    split
    · rfl
    · next h =>
      push_neg at h
      exact h

/-- Witness for C2: the theorem instantiated at requested crop (120,80,80) on
native shape (100,100,100) with no divisor, axis 0, where the resolved size 100
does not exceed the native 100. -/
theorem get_shapes_clamps_before_rounding_witness :
    ([120, 80, 80] : List Nat).length = ([100, 100, 100] : List Nat).length ∧
    (get_shapes [100, 100, 100] (some [120, 80, 80]) none).1.getD 0 0 ≤
      ([100, 100, 100] : List Nat).getD 0 0 :=
  ⟨by decide,
    get_shapes_clamps_before_rounding.1 [100, 100, 100] [120, 80, 80] none (by decide) 0⟩

theorem get_shapes_length (im_shape : List Nat) (cropOpt : Option (List Nat))
    (mOpt : Option Nat) :
    (get_shapes im_shape cropOpt mOpt).1.length = im_shape.length := by
  cases cropOpt with
  | some cs0 =>
    cases mOpt with
    | some m =>
      simp only [get_shapes]
      split <;> simp
    | none => simp [get_shapes]
  | none =>
    cases mOpt with
    | some m => simp [get_shapes]
    | none => simp [get_shapes]

/-- Counterexample to C7: `get_shapes` clamps the requested crop shape
(120,80,80) down to (100,80,80) — it alters the caller's input — yet emits no
warning at all (the warning list is empty): the clamping is silent, contrary to
the claim that every correction is accompanied by a diagnostic notification. -/
theorem get_shapes_silent_clamp_counterexample :
    (get_shapes [100, 100, 100] (some [120, 80, 80]) none).1 = [100, 80, 80] ∧
    ([100, 80, 80] : List Nat) ≠ [120, 80, 80] ∧
    (get_shapes [100, 100, 100] (some [120, 80, 80]) none).2 = [] := by
  decide

/-- C7 (amended): `get_shapes` warns exactly when a caller-requested crop shape
is changed by the divisibility rounding; clamping an oversized request to the
native shape and rounding the native shape when no crop is requested happen
silently, and no correction ever causes a hard failure (the function always
returns a shape of the native dimensionality). -/
theorem get_shapes_warning_characterisation :
    (∀ (im_shape cs0 : List Nat), (get_shapes im_shape (some cs0) none).2 = []) ∧
    (∀ (im_shape : List Nat) (mOpt : Option Nat), (get_shapes im_shape none mOpt).2 = []) ∧
    (∀ (im_shape cs0 : List Nat) (m : Nat),
      (get_shapes im_shape (some cs0) (some m)).2 ≠ [] ↔
        (get_shapes im_shape (some cs0) (some m)).1 ≠
          (get_shapes im_shape (some cs0) none).1) ∧
    (∀ (im_shape : List Nat) (cropOpt : Option (List Nat)) (mOpt : Option Nat),
      (∀ cs, cropOpt = some cs → cs.length = im_shape.length) →
      (get_shapes im_shape cropOpt mOpt).1.length = im_shape.length) := by
  refine ⟨fun im_shape cs0 => rfl, ?_, ?_, ?_⟩
  · intro im_shape mOpt
    cases mOpt <;> rfl
  · intro im_shape cs0 m
    simp only [get_shapes]
    split
    · next h => simpa using h.symm
    · next h =>
      push_neg at h
      simp [h]
  · intro im_shape cropOpt mOpt _
    exact get_shapes_length im_shape cropOpt mOpt

/-- Witness for C7 (amended): instantiating the characterisation at native
shape (100,100,100), requested crop (64,64,64) and divisor 32, where no
rounding occurs and hence no warning is emitted. -/
theorem get_shapes_warning_characterisation_witness :
    (¬ (get_shapes [100, 100, 100] (some [64, 64, 64]) (some 32)).1 ≠
        (get_shapes [100, 100, 100] (some [64, 64, 64]) none).1) ∧
    ¬ (get_shapes [100, 100, 100] (some [64, 64, 64]) (some 32)).2 ≠ [] :=
  ⟨by decide,
    fun h => (by decide :
        ¬ (get_shapes [100, 100, 100] (some [64, 64, 64]) (some 32)).1 ≠
          (get_shapes [100, 100, 100] (some [64, 64, 64]) none).1)
      ((get_shapes_warning_characterisation.2.2.1 [100, 100, 100] [64, 64, 64] 32).1 h)⟩

/-! ### SampleGenerator: `build_model_inputs` (lines 226-263) -/

/-- Modelled from the spec: `utils.add_axis(x, axis=0)` prepends an axis of
size 1 to the array's shape (`ext.lab2im`, not under the repository sources). -/
def add_axis_front (s : List Nat) : List Nat := 1 :: s

/-- Modelled from the spec: `utils.add_axis(x, axis=[0,-1])` prepends an axis
of size 1 and appends a trailing axis of size 1. -/
def add_axis_front_back (s : List Nat) : List Nat := 1 :: (s ++ [1])

/-- Modelled from the spec: `VolumeCatalog.load` returns a volume whose shape
is the spatial shape for single-channel images and the spatial shape with a
trailing channel axis for multi-channel images. -/
def loaded_image_shape (spatial : List Nat) (n_channels : Nat) : List Nat :=
  if 1 < n_channels then spatial ++ [n_channels] else spatial

/-- Shape of one image sample as assembled by `build_model_inputs`: the loaded
volume with `add_axis(axis=0)` when multi-channel, `add_axis(axis=[0,-1])`
otherwise (lines 246-250). -/
def sample_image_shape (spatial : List Nat) (n_channels : Nat) : List Nat :=
  if 1 < n_channels then add_axis_front (loaded_image_shape spatial n_channels)
  else add_axis_front_back spatial

/-- Modelled from the spec: `np.concatenate(arrays, 0)` on arrays that agree on
all axes but the first yields the summed leading axis over the common trailing
axes. -/
def np_concatenate0 (shapes : List (List Nat)) : List Nat :=
  (shapes.map fun s => s.headD 0).sum :: (shapes.headD []).tail

/-- Shapes of the (image, label-map) pair yielded by one pull of the generator
built by `build_model_inputs` (lines 234-263): the per-sample arrays are
concatenated along axis 0 when `batchsize > 1`, and otherwise the single
sample array (`item[0]`) is yielded as is. -/
def build_model_inputs_yield (spatial : List Nat) (n_channels batchsize : Nat) :
    List Nat × List Nat :=
  let imgs := List.replicate batchsize (sample_image_shape spatial n_channels)
  let labs := List.replicate batchsize (add_axis_front_back spatial)
  if 1 < batchsize then (np_concatenate0 imgs, np_concatenate0 labs)
  else (imgs.headD [], labs.headD [])

/-- Counterexample to C4: with `batchsize = 1`, spatial shape (2,2) and one
channel, the yielded image keeps a leading batch axis of size 1 (shape
(1,2,2,1)) — the axis is not omitted as the claim states (which would give
shape (2,2,1)): `item[0]` is the single sample array, which already carries the
leading axis added by `add_axis(axis=[0,-1])`. -/
theorem build_model_inputs_batch_axis_counterexample :
    (build_model_inputs_yield [2, 2] 1 1).1 = [1, 2, 2, 1] ∧
    (build_model_inputs_yield [2, 2] 1 1).2 = [1, 2, 2, 1] ∧
    ([1, 2, 2, 1] : List Nat) ≠ [2, 2, 1] := by
  decide

theorem sum_replicate_one (n : Nat) : (List.replicate n (1 : Nat)).sum = n := by
  induction n with
  | zero => rfl
  | succ k ih => simp [List.replicate_succ, ih, Nat.add_comm]

/-- C4 (amended): the generator built by `build_model_inputs` always yields
arrays with a leading batch axis: when `batchsize = 1` the yielded image and
label arrays are the single sample arrays, whose leading axis (added by
`add_axis`) is kept with size 1; when `batchsize > 1` the samples are
concatenated along axis 0, giving a leading axis of size `batchsize`. -/
theorem build_model_inputs_batch_axis (spatial : List Nat) (ch b : Nat) :
    (b = 1 → build_model_inputs_yield spatial ch b =
      (1 :: (if 1 < ch then spatial ++ [ch] else spatial ++ [1]),
        1 :: (spatial ++ [1]))) ∧
    (1 < b → build_model_inputs_yield spatial ch b =
      (b :: (if 1 < ch then spatial ++ [ch] else spatial ++ [1]),
        b :: (spatial ++ [1]))) := by
  have hsample : sample_image_shape spatial ch =
      1 :: (if 1 < ch then spatial ++ [ch] else spatial ++ [1]) := by
    by_cases h : 1 < ch <;>
      simp [sample_image_shape, loaded_image_shape, add_axis_front, add_axis_front_back, h]
  constructor
  · rintro rfl
    simp [build_model_inputs_yield, hsample, add_axis_front_back]
  · intro hb
    have hcat : ∀ (core : List Nat),
        np_concatenate0 (List.replicate b (1 :: core)) = b :: core := by
      intro core
      have hb0 : b ≠ 0 := by omega
      simp [np_concatenate0, List.map_replicate, sum_replicate_one,
        List.headD, List.replicate, hb0]
      cases b with
      | zero => omega
      | succ k => simp [List.replicate_succ, sum_replicate_one]
    simp only [build_model_inputs_yield, if_pos hb, hsample, add_axis_front_back, hcat]

/-- Witness for C4 (amended): instantiated at spatial shape (2,2), one channel
and `batchsize = 2`, where the yielded arrays have leading axis 2. -/
theorem build_model_inputs_batch_axis_witness :
    1 < 2 ∧ build_model_inputs_yield [2, 2] 1 2 = ([2, 2, 2, 1], [2, 2, 2, 1]) :=
  ⟨by decide, by
    have h := (build_model_inputs_batch_axis [2, 2] 1 2).2 (by decide)
    simpa using h⟩

/-! ### LabelRemapper: dense label encode/decode (lines 166-174 and 215-217)

The label-list canonicalisation (`utils.get_list_labels` with `FS_sort=True`),
the lookup-table construction (`utils.rearrange_label_list`) and the voxelwise
remapping (`l2i_et.convert_labels`) all live in `ext.lab2im`, which is not part
of this repository's sources; they are modelled from the specification. -/

/-- Modelled from the spec: the LabelRemapper sorts the label ids into a
canonical order — numerically ascending, which forces the zero/background
label, if present, first. -/
def canonical_label_list (L : List Nat) : List Nat := L.insertionSort (· ≤ ·)

/-- Modelled from the spec: forward lookup, original label id to dense index
0..N-1 (the `lut` of `utils.rearrange_label_list`). -/
def label_lut (L : List Nat) (v : Nat) : Nat := (canonical_label_list L).indexOf v

/-- Modelled from the spec: inverse lookup, dense index back to the original
label id (gathering from the label list, as the decode stage does). -/
def label_lut_inv (L : List Nat) (i : Nat) : Nat := (canonical_label_list L).getD i 0

/-- Modelled from the spec: `l2i_et.convert_labels` remaps every voxel of a
label volume through a lookup table. -/
def convert_labels (vol : List Nat) (table : Nat → Nat) : List Nat :=
  vol.map table

theorem canonical_label_list_head (L : List Nat) (h0 : 0 ∈ L) :
    canonical_label_list L = 0 :: (canonical_label_list L).tail := by
  have hmem : 0 ∈ canonical_label_list L := by
    simpa [canonical_label_list] using h0
  have hsorted : (canonical_label_list L).Sorted (· ≤ ·) :=
    List.sorted_insertionSort _ L
  cases hC : canonical_label_list L with
  | nil => rw [hC] at hmem; cases hmem
  | cons c rest =>
    rw [hC] at hmem hsorted
    have hc : c = 0 := by
      rcases List.mem_cons.1 hmem with h | h
      · omega
      · have := (List.sorted_cons.1 hsorted).1 0 h
        omega
    simp [hc]

theorem label_roundtrip (L : List Nat) (v : Nat) (hv : v ∈ L) :
    label_lut_inv L (label_lut L v) = v := by
  have hmem : v ∈ canonical_label_list L := by
    simpa [canonical_label_list] using hv
  have hlt : (canonical_label_list L).indexOf v < (canonical_label_list L).length :=
    List.indexOf_lt_length.2 hmem
  simp only [label_lut_inv, label_lut]
  rw [List.getD_eq_getElem _ _ hlt]
  exact List.getElem_indexOf hlt

/-- C8: for every label list containing an explicit zero label, the dense
remapping places 0 at dense index 0, forward-then-inverse lookup restores every
original id, a whole label volume drawn from the list survives the
encode/decode round trip, and — as in the pipeline, where the decode stage
gathers from the caller's `segmentation_labels` — decoding through the original
(canonically ordered) list restores exactly the ids encoded through the lut. -/
theorem label_remapping_roundtrip (L : List Nat) (h0 : 0 ∈ L) :
    label_lut_inv L 0 = 0 ∧
    label_lut L 0 = 0 ∧
    (∀ v, v ∈ L → label_lut_inv L (label_lut L v) = v) ∧
    (∀ vol : List Nat, (∀ x, x ∈ vol → x ∈ L) →
      convert_labels (convert_labels vol (label_lut L)) (label_lut_inv L) = vol) ∧
    (L.Sorted (· ≤ ·) → ∀ vol : List Nat, (∀ x, x ∈ vol → x ∈ L) →
      (convert_labels vol (label_lut L)).map (fun i => L.getD i 0) = vol) := by
  refine ⟨?_, ?_, fun v hv => label_roundtrip L v hv, ?_, ?_⟩
  · rw [label_lut_inv, canonical_label_list_head L h0]
    rfl
  · rw [label_lut, canonical_label_list_head L h0]
    exact List.indexOf_cons_self 0 _
  · intro vol hvol
    simp only [convert_labels, List.map_map]
    have : ∀ x, x ∈ vol → (label_lut_inv L ∘ label_lut L) x = x := by
      intro x hx
      exact label_roundtrip L x (hvol x hx)
    calc vol.map (label_lut_inv L ∘ label_lut L) = vol.map id := List.map_congr_left this
      _ = vol := List.map_id vol
  · intro hsorted vol hvol
    have hcanon : canonical_label_list L = L :=
      List.Sorted.insertionSort_eq hsorted
    simp only [convert_labels, List.map_map]
    have : ∀ x, x ∈ vol → ((fun i => L.getD i 0) ∘ label_lut L) x = x := by
      intro x hx
      have := label_roundtrip L x (hvol x hx)
      simpa [label_lut_inv, hcanon] using this
    calc vol.map ((fun i => L.getD i 0) ∘ label_lut L) = vol.map id :=
        List.map_congr_left this
      _ = vol := List.map_id vol

/-- Witness for C8: the theorem instantiated at the label list [0, 2, 3, 4, 5]
of the spec's concrete scenario, checking the index-0 placement and the round
trip of the volume [2, 0, 5, 3]. -/
theorem label_remapping_roundtrip_witness :
    (0 : Nat) ∈ ([0, 2, 3, 4, 5] : List Nat) ∧
    label_lut_inv [0, 2, 3, 4, 5] 0 = 0 ∧
    convert_labels (convert_labels [2, 0, 5, 3] (label_lut [0, 2, 3, 4, 5]))
      (label_lut_inv [0, 2, 3, 4, 5]) = [2, 0, 5, 3] :=
  ⟨by decide,
    (label_remapping_roundtrip [0, 2, 3, 4, 5] (by decide)).1,
    (label_remapping_roundtrip [0, 2, 3, 4, 5] (by decide)).2.2.2.1 [2, 0, 5, 3]
      (by decide)⟩

/-! ### AugmentationPipeline: `build_augmentation_model` (lines 144-223)

The Keras graph is modelled at two levels.  A symbolic dataflow tracks the
shape and dtype descriptor of the image and label tensors through the stages
(the per-layer behaviour — shape-consistent randomized transforms — is
modelled from the specification, since `ext.lab2im`/`ext.neuron` layers are not
under the repository sources).  A stepwise execution additionally tracks
Python name resolution, since the function body refers to the plain names
`layers`, `get_ras_axes` and `list_inputs`, none of which is bound in the
module (the imports alias `ext.neuron.layers` as `nrn_layers` only). -/

/-- A Python parameter value as far as the stage-gating tests can distinguish
it: the literal `False`, the literal `None`, or a number. -/
inductive PyParam where
  | pyFalse
  | pyNone
  | num (q : ℚ)
deriving DecidableEq

/-- Tensor element dtypes occurring in the pipeline. -/
inductive DType where
  | float32
  | int32
deriving DecidableEq

/-- Symbolic descriptor of a Keras tensor: full shape (spatial axes plus the
trailing channel axis, without the batch axis) and dtype. -/
structure TensorD where
  shape : List Nat
  dtype : DType
deriving DecidableEq

/-- A Python exception, as far as the claims distinguish them. -/
inductive PyError where
  | nameError (n : String)
  | assertionError (msg : String)
deriving DecidableEq

/-- The names bound at module level in `supervised_training.py` (lines 1-21:
the imports, with `ext.neuron.layers` aliased as `nrn_layers`) together with
the module's own functions. -/
def module_scope : List String :=
  ["os", "np", "tf", "KL", "K", "npr", "Model", "metrics_model", "train_model",
   "utils", "edit_volumes", "nrn_models", "nrn_layers", "l2i_et", "l2i_sa",
   "l2i_ia", "supervised_training", "build_augmentation_model",
   "build_model_inputs", "get_shapes"]

/-- Resolving a plain name against the module scope: a NameError when the name
is unbound. -/
def resolve_name (n : String) : Except PyError Unit :=
  if n ∈ module_scope then Except.ok () else Except.error (PyError.nameError n)

/-- Modelled from the spec: `RandomSpatialDeformation` is a shape-consistent
randomized transform — it resamples onto the same grid, preserving shape and
dtype. -/
def randomSpatialDeformation (t : TensorD) : TensorD := t

/-- Modelled from the spec: `RandomCrop(crop)` extracts a sub-volume of the
target crop shape, keeping the trailing channel axis. -/
def randomCrop (crop : List Nat) (t : TensorD) : TensorD :=
  ⟨crop ++ t.shape.drop crop.length, t.dtype⟩

/-- Modelled from the spec: `RandomFlip` mirrors along one spatial axis,
preserving shape and dtype. -/
def randomFlip (t : TensorD) : TensorD := t

/-- Modelled from the spec: `BiasFieldCorruption` multiplies a smooth field
into the image, preserving shape and dtype. -/
def biasFieldCorruption (t : TensorD) : TensorD := t

/-- Modelled from the spec: `IntensityAugmentation` normalizes and
gamma-transforms each channel, preserving shape and dtype. -/
def intensityAugmentation (t : TensorD) : TensorD := t

/-- A `tf.cast` wrapped in a Lambda layer: shape kept, dtype replaced. -/
def castTensor (d : DType) (t : TensorD) : TensorD := ⟨t.shape, d⟩

/-- Modelled from the spec: `l2i_et.convert_labels` gathers from an integer
lookup table, so its output is an integer tensor of the same shape. -/
def convert_labels_tensor (t : TensorD) : TensorD := ⟨t.shape, DType.int32⟩

/-- The parameters of `build_augmentation_model` that the gating tests, shape
resolution and name resolution depend on. -/
structure AugParams where
  im_shape : List Nat
  n_channels : Nat
  output_shape : Option (List Nat)
  output_div_by_n : Option Nat
  flipping : Bool
  aff : Option Unit
  scaling_bounds : PyParam
  rotation_bounds : PyParam
  shearing_bounds : PyParam
  translation_bounds : PyParam
  nonlin_std : PyParam
  bias_field_std : ℚ
deriving DecidableEq

/-- The Python test `x is not False`: true for every value except the literal
`False` (in particular true for `0` and for `None`). -/
def is_not_False : PyParam → Bool
  | PyParam.pyFalse => false
  | _ => true

/-- The gate of the deformation stage (line 177): `(scaling_bounds is not
False) | (rotation_bounds is not False) | (shearing_bounds is not False) |
(translation_bounds is not False) | (nonlin_std is not False)`. -/
def deform_condition (sc ro sh tr nl : PyParam) : Bool :=
  is_not_False sc || is_not_False ro || is_not_False sh ||
    is_not_False tr || is_not_False nl

def deform_included (p : AugParams) : Bool :=
  deform_condition p.scaling_bounds p.rotation_bounds p.shearing_bounds
    p.translation_bounds p.nonlin_std

/-- The crop shape resolved at line 164. -/
def crop_shape_of (p : AugParams) : List Nat :=
  (get_shapes p.im_shape p.output_shape p.output_div_by_n).1

/-- The gate of the crop stage (line 191): `crop_shape != im_shape`. -/
def crop_included (p : AugParams) : Bool :=
  decide (crop_shape_of p ≠ p.im_shape)

/-- The gate of the bias-field stage (line 205): `bias_field_std > 0`. -/
def bias_included (p : AugParams) : Bool :=
  decide (0 < p.bias_field_std)

/-- The model inputs and the dense-label encode (lines 170-174): image input
of shape `im_shape + [n_channels]`, labels input of shape `im_shape + [1]`
converted through the lut. -/
def aug_encode (p : AugParams) : TensorD × TensorD :=
  (convert_labels_tensor ⟨p.im_shape ++ [1], DType.float32⟩,
    ⟨p.im_shape ++ [p.n_channels], DType.float32⟩)

/-- The deformation stage (lines 177-188) on the (labels, image) pair. -/
def aug_deform (p : AugParams) (li : TensorD × TensorD) : TensorD × TensorD :=
  if deform_included p then
    (randomSpatialDeformation li.1, randomSpatialDeformation li.2)
  else li

/-- The crop stage (lines 191-194) on the (labels, image) pair. -/
def aug_crop (p : AugParams) (li : TensorD × TensorD) : TensorD × TensorD :=
  if crop_included p then
    (randomCrop (crop_shape_of p) li.1, randomCrop (crop_shape_of p) li.2)
  else li

/-- The flip stage (lines 197-202) on the (labels, image) pair. -/
def aug_flip (p : AugParams) (li : TensorD × TensorD) : TensorD × TensorD :=
  if p.flipping then (randomFlip li.1, randomFlip li.2) else li

/-- The bias-field stage (lines 205-208) on the image. -/
def aug_bias (p : AugParams) (img : TensorD) : TensorD :=
  if bias_included p then castTensor DType.float32 (biasFieldCorruption img)
  else img

/-- The unconditional intensity augmentation and final image cast
(lines 211-213). -/
def aug_intensity (img : TensorD) : TensorD :=
  castTensor DType.float32 (intensityAugmentation img)

/-- The decode stage and final label cast (lines 216-217). -/
def aug_decode (lab : TensorD) : TensorD :=
  castTensor DType.int32 (convert_labels_tensor lab)

/-- The dataflow of the graph described by `build_augmentation_model`: the
descriptors of the image and label outputs. -/
def build_augmentation_model_dataflow (p : AugParams) : TensorD × TensorD :=
  let li := aug_flip p (aug_crop p (aug_deform p (aug_encode p)))
  (aug_intensity (aug_bias p li.2), aug_decode li.1)

/-- Stepwise execution of `build_augmentation_model`, tracking Python name
resolution: the function body refers to the plain names `layers` (every
augmentation layer, including the unconditional `IntensityAugmentation` at
line 212), `get_ras_axes` (flip stage, line 201) and `list_inputs` (model
construction, line 221), and asserts `aff is not None` when flipping
(line 198).  In a call expression the callee (`layers.RandomFlip`) is
evaluated before its arguments, so `layers` is resolved before
`get_ras_axes`. -/
def build_augmentation_model_run (p : AugParams) :
    Except PyError (TensorD × TensorD) := do
  let li0 := aug_encode p
  if deform_included p then resolve_name "layers" else pure ()
  let li1 := aug_deform p li0
  if crop_included p then resolve_name "layers" else pure ()
  let li2 := aug_crop p li1
  if p.flipping then
    if p.aff.isNone then
      Except.error (PyError.assertionError "aff should not be None if flipping is True")
    else do
      resolve_name "layers"
      resolve_name "get_ras_axes"
  else pure ()
  let li3 := aug_flip p li2
  if bias_included p then resolve_name "layers" else pure ()
  let image1 := aug_bias p li3.2
  resolve_name "layers"
  let image2 := aug_intensity image1
  let labels2 := aug_decode li3.1
  resolve_name "list_inputs"
  pure (image2, labels2)

/-- Whether an execution outcome is a raised NameError. -/
def raisesNameError : Except PyError (TensorD × TensorD) → Bool
  | Except.error (PyError.nameError _) => true
  | _ => false

theorem is_not_False_eq_false (x : PyParam) :
    is_not_False x = false ↔ x = PyParam.pyFalse := by
  cases x <;> simp [is_not_False]

/-- Counterexample to C3: with scaling, rotation, shearing and translation
bounds all `False` and `nonlin_std = 0` (every bound "disabled, including the
value 0" in the claim's sense), the deformation stage is NOT skipped: the gate
tests `is not False`, and `0 is not False` holds, so the stage is built.  The
same holds for the value `None`. -/
theorem deform_stage_not_skipped_counterexample :
    deform_condition PyParam.pyFalse PyParam.pyFalse PyParam.pyFalse
      PyParam.pyFalse (PyParam.num 0) = true ∧
    deform_condition PyParam.pyFalse PyParam.pyFalse PyParam.pyFalse
      PyParam.pyFalse PyParam.pyNone = true := by
  decide

/-- C3 (amended): the deformation stage is skipped exactly when all five of
its bound parameters are the literal `False` (a numeric value — even 0 — or
`None` does not skip it, since the gate tests `is not False`); the bias-field
stage is skipped exactly when `bias_field_std <= 0`; and skipping either stage
does not change the shape or dtype descriptor flowing to the next stage (the
deformation stage preserves the descriptors whether built or skipped, and the
bias stage preserves the shape, and the whole descriptor of a float32
image). -/
theorem stage_skipping_characterisation :
    (∀ sc ro sh tr nl : PyParam,
      deform_condition sc ro sh tr nl = false ↔
        (sc = PyParam.pyFalse ∧ ro = PyParam.pyFalse ∧ sh = PyParam.pyFalse ∧
          tr = PyParam.pyFalse ∧ nl = PyParam.pyFalse)) ∧
    (∀ p : AugParams, bias_included p = false ↔ p.bias_field_std ≤ 0) ∧
    (∀ (p : AugParams) (li : TensorD × TensorD), aug_deform p li = li) ∧
    (∀ (p : AugParams) (img : TensorD),
      (aug_bias p img).shape = img.shape ∧
      (img.dtype = DType.float32 → aug_bias p img = img)) := by
  refine ⟨?_, ?_, ?_, ?_⟩
  · intro sc ro sh tr nl
    simp [deform_condition, is_not_False_eq_false, and_assoc]
  · intro p
    simp [bias_included, not_lt]
  · intro p li
    cases li with
    | mk a b =>
      by_cases h : deform_included p = true <;>
        simp [aug_deform, h, randomSpatialDeformation]
  · intro p img
    cases img with
    | mk s d =>
      by_cases h : bias_included p = true <;>
        simp [aug_bias, h, castTensor, biasFieldCorruption]
      intro hd
      simp [hd]

/-- Witness for C3 (amended): with all five parameters the literal `False` the
deformation gate is off, and with `bias_field_std = 0` the bias gate is off. -/
theorem stage_skipping_characterisation_witness :
    deform_condition PyParam.pyFalse PyParam.pyFalse PyParam.pyFalse
      PyParam.pyFalse PyParam.pyFalse = false ∧
    bias_included ⟨[2, 2, 2], 1, none, none, false, none, PyParam.pyFalse,
      PyParam.pyFalse, PyParam.pyFalse, PyParam.pyFalse, PyParam.pyFalse, 0⟩ = false :=
  ⟨(stage_skipping_characterisation.1 _ _ _ _ _).2 ⟨rfl, rfl, rfl, rfl, rfl⟩,
    (stage_skipping_characterisation.2.1 _).2 (by norm_num)⟩

/-- C9: for every parameter setting, the graph described by
`build_augmentation_model` outputs an image descriptor cast to float32 and a
label descriptor cast to int32, both with the spatial shape resolved by
`get_shapes(im_shape, output_shape, output_div_by_n)` (the image with its
channel axis, the labels with a single channel). -/
theorem aug_model_output_contract (p : AugParams) :
    build_augmentation_model_dataflow p =
      (⟨crop_shape_of p ++ [p.n_channels], DType.float32⟩,
        ⟨crop_shape_of p ++ [1], DType.int32⟩) := by
  have hlen : (crop_shape_of p).length = p.im_shape.length :=
    get_shapes_length p.im_shape p.output_shape p.output_div_by_n
  have hdeform : ∀ li, aug_deform p li = li := by
    intro li
    cases li with
    | mk a b =>
      by_cases h : deform_included p = true <;>
        simp [aug_deform, h, randomSpatialDeformation]
  have hflip : ∀ li, aug_flip p li = li := by
    intro li
    cases li with
    | mk a b =>
      by_cases h : p.flipping = true <;> simp [aug_flip, h, randomFlip]
  have hcrop : aug_crop p (aug_encode p) =
      (⟨crop_shape_of p ++ [1], DType.int32⟩,
        ⟨crop_shape_of p ++ [p.n_channels], DType.float32⟩) := by
    by_cases h : crop_shape_of p = p.im_shape
    · simp [aug_crop, crop_included, h, aug_encode, convert_labels_tensor]
    · have hi : crop_included p = true := by simp [crop_included, h]
      simp only [aug_crop, hi, if_pos, aug_encode, convert_labels_tensor, randomCrop]
      rw [hlen]
      simp [List.drop_left]
  simp only [build_augmentation_model_dataflow, hdeform, hflip, hcrop]
  by_cases hb : bias_included p = true <;>
    simp [aug_bias, hb, aug_intensity, aug_decode, castTensor,
      biasFieldCorruption, intensityAugmentation, convert_labels_tensor]

/-- Witness for C9: at native shape (100,100,100), no requested crop,
divisor 32 and one channel, the outputs are a float32 image and an int32 label
tensor of spatial shape (96,96,96). -/
theorem aug_model_output_contract_witness :
    build_augmentation_model_dataflow
      ⟨[100, 100, 100], 1, none, some 32, true, some (), PyParam.num (3 / 200),
        PyParam.num 15, PyParam.num (3 / 250), PyParam.pyFalse, PyParam.num 3,
        3 / 10⟩ =
      (⟨[96, 96, 96, 1], DType.float32⟩, ⟨[96, 96, 96, 1], DType.int32⟩) := by
  rw [aug_model_output_contract]
  rfl

/-- Counterexample to C10: with all deformation bounds the literal `False`, no
requested output shape and no divisibility requirement (so no crop stage),
`flipping=True` and `aff=None`, the function raises the AssertionError of
line 198 (`aff should not be None if flipping is True`) before reaching any of
the unbound names — not a NameError. -/
theorem aug_model_assertion_counterexample :
    raisesNameError (build_augmentation_model_run
      ⟨[2, 2, 2], 1, none, none, true, none, PyParam.pyFalse, PyParam.pyFalse,
        PyParam.pyFalse, PyParam.pyFalse, PyParam.pyFalse, 1⟩) = false ∧
    build_augmentation_model_run
      ⟨[2, 2, 2], 1, none, none, true, none, PyParam.pyFalse, PyParam.pyFalse,
        PyParam.pyFalse, PyParam.pyFalse, PyParam.pyFalse, 1⟩ =
      Except.error (PyError.assertionError
        "aff should not be None if flipping is True") := by
  constructor <;> rfl

/-- C10 (amended): every invocation of `build_augmentation_model` raises an
exception before returning a model.  On every path that reaches an
augmentation layer this is the NameError on the unbound name `layers` (the
`IntensityAugmentation` reference at line 212 is unconditional, and `layers`
is resolved before `get_ras_axes` and `list_inputs`); the one exception is the
path where no deformation stage and no crop stage is built, flipping is
requested and `aff` is `None`, where the line-198 AssertionError fires
first. -/
theorem aug_model_always_raises (p : AugParams) :
    build_augmentation_model_run p =
      Except.error
        (if !deform_included p && !crop_included p && p.flipping && p.aff.isNone then
          PyError.assertionError "aff should not be None if flipping is True"
        else PyError.nameError "layers") := by
  have hlay : resolve_name "layers" = Except.error (PyError.nameError "layers") := by
    rfl
  unfold build_augmentation_model_run
  cases hd : deform_included p with
  | true => simp [hd, hlay, bind, Except.bind]
  | false =>
    cases hc : crop_included p with
    | true => simp [hd, hc, hlay, bind, Except.bind, pure, Except.pure]
    | false =>
      cases hf : p.flipping with
      | false =>
        cases hb : bias_included p <;>
          simp [hd, hc, hf, hb, hlay, bind, Except.bind, pure, Except.pure]
      | true =>
        cases ha : p.aff with
        | none =>
          simp [hd, hc, hf, ha, hlay, bind, Except.bind, pure, Except.pure,
            Option.isNone]
        | some u =>
          cases hb : bias_included p <;>
            simp [hd, hc, hf, ha, hb, hlay, bind, Except.bind, pure, Except.pure,
              Option.isNone]

/-- Witness for C10 (amended): at the default-style parameters used by
`supervised_training` (numeric bounds, `aff` supplied), the execution raises
the NameError on `layers`. -/
theorem aug_model_always_raises_witness :
    build_augmentation_model_run
      ⟨[2, 2, 2], 1, none, none, true, some (), PyParam.num (3 / 200),
        PyParam.num 15, PyParam.num (3 / 250), PyParam.pyFalse, PyParam.num 3,
        3 / 10⟩ =
      Except.error (PyError.nameError "layers") := by
  have h := aug_model_always_raises
    ⟨[2, 2, 2], 1, none, none, true, some (), PyParam.num (3 / 200),
      PyParam.num 15, PyParam.num (3 / 250), PyParam.pyFalse, PyParam.num 3,
      3 / 10⟩
  simpa using h

/-! ### Setup sequence of `supervised_training` (lines 24-99)

The setup is modelled as a trace of the external actions it performs (file
listing, label-list scanning, directory creation, volume-info reading) paired
with its outcome.  The external collaborators themselves (`utils.
list_images_in_folder`, `utils.get_list_labels`, `utils.mkdir`,
`utils.get_volume_info`) are modelled from the spec as succeeding actions, as
the claims only concern the order of the module's own checks relative to
them.  Sampling events appear only on the continuation after the augmentation
model is built. -/

/-- An external action performed during the setup of `supervised_training`. -/
inductive TrainEvent where
  | listImagesInFolder
  | getListLabels
  | makeDirectory
  | getVolumeInfo
  | buildAugmentationModel
  | sampleDrawn
  | batchGenerated
  | trainStep
deriving DecidableEq

/-- The configuration of `supervised_training` that its setup checks and its
call to `build_augmentation_model` depend on.  `im_shape` and `n_channels`
stand for the volume info read from the first image (modelled from the spec:
`VolumeCatalog.load`). -/
structure TrainConfig where
  wl2_epochs : Int
  dice_epochs : Int
  path_images : List String
  path_labels : List String
  im_shape : List Nat
  n_channels : Nat
  output_shape : Option (List Nat)
  n_levels : Nat
  flipping : Bool
  scaling_bounds : PyParam
  rotation_bounds : PyParam
  shearing_bounds : PyParam
  translation_bounds : PyParam
  nonlin_std : PyParam
  bias_field_std : ℚ

/-- The augmentation-model parameters that `supervised_training` passes at
lines 78-93: `output_div_by_n = 2 ** n_levels` and `aff = np.eye(4)` (not
`None`). -/
def aug_params_of (c : TrainConfig) : AugParams :=
  ⟨c.im_shape, c.n_channels, c.output_shape, some (2 ^ c.n_levels), c.flipping,
    some (), c.scaling_bounds, c.rotation_bounds, c.shearing_bounds,
    c.translation_bounds, c.nonlin_std, c.bias_field_std⟩

/-- The setup sequence of `supervised_training` (lines 55-99): first the
epoch-count assert (line 56), then the two directory listings (lines 60-61),
then the file-count assert (line 62), then label-list scanning, model-folder
creation and volume-info reading (lines 65-77), then the call to
`build_augmentation_model` (line 78); only the continuation after that draws
samples and generates batches. -/
def supervised_training (c : TrainConfig) : List TrainEvent × Except PyError Unit :=
  if ¬(0 < c.wl2_epochs ∨ 0 < c.dice_epochs) then
    ([], Except.error (PyError.assertionError
      "either wl2_epochs or dice_epochs must be positive"))
  else if c.path_images.length ≠ c.path_labels.length then
    ([TrainEvent.listImagesInFolder, TrainEvent.listImagesInFolder],
      Except.error (PyError.assertionError
        "There should be as many images as label maps."))
  else
    let ev := [TrainEvent.listImagesInFolder, TrainEvent.listImagesInFolder,
      TrainEvent.getListLabels, TrainEvent.makeDirectory,
      TrainEvent.makeDirectory, TrainEvent.getVolumeInfo,
      TrainEvent.buildAugmentationModel]
    match build_augmentation_model_run (aug_params_of c) with
    | Except.error e => (ev, Except.error e)
    | Except.ok _ =>
      (ev ++ [TrainEvent.sampleDrawn, TrainEvent.batchGenerated,
        TrainEvent.trainStep], Except.ok ())

/-- C5: when the image and label directories contain differing numbers of
files (and the epoch check passes), `supervised_training` fails with the
descriptive file-count error right after the two listings — before any sample
is drawn or batch generated. -/
theorem training_count_mismatch_fails_fast (c : TrainConfig)
    (hep : 0 < c.wl2_epochs ∨ 0 < c.dice_epochs)
    (hmis : c.path_images.length ≠ c.path_labels.length) :
    supervised_training c =
      ([TrainEvent.listImagesInFolder, TrainEvent.listImagesInFolder],
        Except.error (PyError.assertionError
          "There should be as many images as label maps.")) ∧
    TrainEvent.sampleDrawn ∉ (supervised_training c).1 ∧
    TrainEvent.batchGenerated ∉ (supervised_training c).1 := by
  have h : supervised_training c =
      ([TrainEvent.listImagesInFolder, TrainEvent.listImagesInFolder],
        Except.error (PyError.assertionError
          "There should be as many images as label maps.")) := by
    rw [supervised_training, if_neg (not_not_intro hep), if_pos hmis]
  refine ⟨h, ?_, ?_⟩ <;> rw [h] <;> decide

/-- Witness for C5: a configuration with one image and no labels fails with
the file-count error without sampling. -/
theorem training_count_mismatch_fails_fast_witness :
    ((0 : Int) < 5 ∨ (0 : Int) < 100) ∧
    (["img0"] : List String).length ≠ ([] : List String).length ∧
    supervised_training
      ⟨5, 100, ["img0"], [], [2, 2, 2], 1, none, 5, true, PyParam.pyFalse,
        PyParam.pyFalse, PyParam.pyFalse, PyParam.pyFalse, PyParam.pyFalse, 0⟩ =
      ([TrainEvent.listImagesInFolder, TrainEvent.listImagesInFolder],
        Except.error (PyError.assertionError
          "There should be as many images as label maps.")) :=
  ⟨Or.inl (by norm_num), by decide,
    (training_count_mismatch_fails_fast
      ⟨5, 100, ["img0"], [], [2, 2, 2], 1, none, 5, true, PyParam.pyFalse,
        PyParam.pyFalse, PyParam.pyFalse, PyParam.pyFalse, PyParam.pyFalse, 0⟩
      (Or.inl (by norm_num)) (by decide)).1⟩

/-- C6: when neither weighted-L2 nor Dice epochs are requested
(`wl2_epochs <= 0` and `dice_epochs <= 0`), `supervised_training` fails with
the descriptive epoch error as its very first check: the event trace is empty,
so no file listing, I/O or randomized work has happened. -/
theorem training_no_epochs_fails_first (c : TrainConfig)
    (h1 : c.wl2_epochs ≤ 0) (h2 : c.dice_epochs ≤ 0) :
    supervised_training c =
      ([], Except.error (PyError.assertionError
        "either wl2_epochs or dice_epochs must be positive")) := by
  rw [supervised_training, if_pos]
  push_neg
  exact ⟨by omega, by omega⟩

/-- Witness for C6: a configuration requesting zero epochs of both kinds fails
with the epoch error and an empty event trace. -/
theorem training_no_epochs_fails_first_witness :
    (0 : Int) ≤ 0 ∧
    supervised_training
      ⟨0, 0, ["img0"], ["lab0"], [2, 2, 2], 1, none, 5, true, PyParam.pyFalse,
        PyParam.pyFalse, PyParam.pyFalse, PyParam.pyFalse, PyParam.pyFalse, 0⟩ =
      ([], Except.error (PyError.assertionError
        "either wl2_epochs or dice_epochs must be positive")) :=
  ⟨le_refl 0,
    training_no_epochs_fails_first
      ⟨0, 0, ["img0"], ["lab0"], [2, 2, 2], 1, none, 5, true, PyParam.pyFalse,
        PyParam.pyFalse, PyParam.pyFalse, PyParam.pyFalse, PyParam.pyFalse, 0⟩
      (by norm_num) (by norm_num)⟩

end SynthSeg
